import Mathlib

/-!
Verification development for the travelplanner creator/templates feature.

The frontend handlers in `src/frontend/src/routes/_layout/creator.tsx`,
`src/frontend/src/routes/_layout/templates.tsx` and
`src/frontend/src/main.tsx` are embedded as pure Lean functions.
JavaScript truthiness matters in several places and is modelled
explicitly: an object value (possibly empty) is truthy, while
`null`/`undefined` is falsy and is modelled as `Option.none`; the empty
string is falsy.

The backend Discovery Service is not part of the available sources; it
is modelled from the specification (section 4.3) and marked as such.
-/

/-- A flat string-keyed attribute mapping, as used for the template
fields `core_experience` and `flexible_logistics`. -/
abbrev AttrMap := List (String × String)

/-- JavaScript `x || dflt` for a value that is either an object
(truthy, even when the object is empty) or `null`/`undefined` (falsy,
modelled as `none`). -/
def jsOrObj (x : Option AttrMap) (dflt : AttrMap) : AttrMap :=
  match x with
  | some m => m
  | none => dflt

/-- JavaScript `x || dflt` for a string-or-missing value: both a
missing value and the empty string are falsy. -/
def jsOrString (x : Option String) (dflt : String) : String :=
  match x with
  | some s => if s = "" then dflt else s
  | none => dflt

/-- The template creation form state of `CreatorDashboard`
(`creator.tsx`, `templateFormData`). The two mapping fields are typed
`any` in the source and initialised to the empty object; `none` stands
for the JavaScript `null`/`undefined` case, `some m` for an object. -/
structure TemplateForm where
  title : String
  description : String
  creator_notes : String
  core_experience : Option AttrMap
  flexible_logistics : Option AttrMap
deriving Repr, DecidableEq

/-- The initial form state set by `useState` in `CreatorDashboard`:
empty strings and empty (but present, hence truthy) objects. -/
def initialTemplateForm : TemplateForm :=
  { title := ""
    description := ""
    creator_notes := ""
    core_experience := some []
    flexible_logistics := some [] }

/-- The request body passed to `CreatorsService.createTripTemplate`.
After the `||` defaulting in `handleTemplateSubmit` the two mapping
fields are always objects, never `null`/`undefined`. -/
structure TemplatePayload where
  title : String
  description : String
  creator_notes : String
  core_experience : AttrMap
  flexible_logistics : AttrMap
deriving Repr, DecidableEq

/-- Outcome of a form submit handler: either an early return with an
error toast, or a mutation request carrying a payload. -/
inductive SubmitOutcome (α : Type) where
  | rejected (message : String)
  | submitted (payload : α)
deriving Repr, DecidableEq

/-- `handleTemplateSubmit` from `creator.tsx` (lines 79-94): rejects
when `title` or `description` is falsy (empty string); otherwise builds
`templateData` with `core_experience || (destination ↦ title)` and
`flexible_logistics || (duration ↦ "7 days")` and issues the create
mutation with it. -/
def handleTemplateSubmit (form : TemplateForm) : SubmitOutcome TemplatePayload :=
  if form.title = "" ∨ form.description = "" then
    .rejected "Please fill in all required fields"
  else
    .submitted
      { title := form.title
        description := form.description
        creator_notes := form.creator_notes
        core_experience := jsOrObj form.core_experience [("destination", form.title)]
        flexible_logistics := jsOrObj form.flexible_logistics [("duration", "7 days")] }

/-- The create-template request issued by a submission, if any. -/
def requestOf (form : TemplateForm) : Option TemplatePayload :=
  match handleTemplateSubmit form with
  | .rejected _ => none
  | .submitted p => some p

/-- Component state of `CreatorDashboard` that the submit and success
handlers touch: the form-visibility flag and the form data. -/
structure DashboardState where
  showTemplateForm : Bool
  templateFormData : TemplateForm
deriving Repr, DecidableEq

/-- Observable actions emitted by the dashboard handlers. -/
inductive DashAction where
  | errorToast (message : String)
  | successToast (message : String)
  | invalidateQueries (queryKey : List String)
  | createRequest (payload : TemplatePayload)
deriving Repr, DecidableEq

/-- The full effect of `handleTemplateSubmit` on the component: the
handler never calls `setTemplateFormData` or `setShowTemplateForm`, so
the state is returned unchanged on both paths; the reject path only
shows an error toast, the accept path only issues the create request. -/
def submitTemplateStep (s : DashboardState) : DashboardState × List DashAction :=
  match handleTemplateSubmit s.templateFormData with
  | .rejected msg => (s, [.errorToast msg])
  | .submitted p => (s, [.createRequest p])

/-- `createTemplateMutation.onSuccess` from `creator.tsx` (lines
62-73): shows a success toast, invalidates the cached
`(creator, templates)` query, closes the form and resets the form data
to the initial empty values. -/
def onCreateTemplateSuccess (_s : DashboardState) : DashboardState × List DashAction :=
  ({ showTemplateForm := false, templateFormData := initialTemplateForm },
   [.successToast "Template created successfully",
    .invalidateQueries ["creator", "templates"]])

/-- The creator-profile setup form state of `CreatorSetup`
(`creator.tsx`, `formData`). -/
structure ProfileForm where
  username : String
  display_name : String
  bio : String
deriving Repr, DecidableEq

/-- `handleSubmit` from `CreatorSetup` (`creator.tsx`, lines 311-318):
rejects when `username` or `display_name` is falsy (empty string);
otherwise calls `createCreatorProfile` with exactly the form data. -/
def handleSubmit (form : ProfileForm) : SubmitOutcome ProfileForm :=
  if form.username = "" ∨ form.display_name = "" then
    .rejected "Please fill in all required fields"
  else
    .submitted form

/-- Errors reaching the global handler: an `ApiError` with an HTTP
status and optional body detail, or any other JavaScript error. -/
inductive FrontendError where
  | apiError (status : Nat) (detail : Option String)
  | jsError
deriving Repr, DecidableEq

/-- Side effects of the global error handler. -/
structure ErrorEffects where
  removeAccessToken : Bool
  redirect : Option String
  toast : Option (String × String)
deriving Repr, DecidableEq

/-- The handler doing nothing. -/
def noEffects : ErrorEffects :=
  { removeAccessToken := false, redirect := none, toast := none }

/-- `handleApiError` from `main.tsx` (lines 21-38): on a 401 `ApiError`
the stored `access_token` is removed and the browser is sent to
`/login`; on a 403 a toast titled "Access Denied" is shown with the
body detail (or "Access forbidden" when the detail is missing or
empty); every other status, and every non-`ApiError`, does nothing. -/
def handleApiError : FrontendError → ErrorEffects
  | .apiError status detail =>
      if status = 401 then
        { removeAccessToken := true, redirect := some "/login", toast := none }
      else if status = 403 then
        { removeAccessToken := false, redirect := none,
          toast := some ("Access Denied", jsOrString detail "Access forbidden") }
      else noEffects
  | .jsError => noEffects

/-- The two cache-level error hooks of the `QueryClient`. -/
structure QueryClientConfig where
  queryCacheOnError : FrontendError → ErrorEffects
  mutationCacheOnError : FrontendError → ErrorEffects

/-- The `QueryClient` built in `main.tsx` (lines 39-46): both the query
cache and the mutation cache use `handleApiError` as their `onError`,
so the handling is global rather than per-call. -/
def queryClient : QueryClientConfig :=
  { queryCacheOnError := handleApiError
    mutationCacheOnError := handleApiError }

/-- Creator lifecycle status (spec section 3). -/
inductive CreatorStatus where
  | pending
  | active
  | suspended
deriving Repr, DecidableEq

/-- Template lifecycle status (spec section 3). -/
inductive TemplateStatus where
  | draft
  | published
deriving Repr, DecidableEq

/-- A stored creator record (spec section 3, fields the discovery
model needs). -/
structure Creator where
  id : Nat
  user_id : Nat
  username : String
  display_name : String
  status : CreatorStatus
deriving Repr, DecidableEq

/-- A stored trip template record (spec section 3, fields the
discovery model needs). -/
structure TripTemplate where
  id : Nat
  creator_id : Nat
  title : String
  description : String
  status : TemplateStatus
  created_at : Nat
deriving Repr, DecidableEq

/-- The persistence collaborator state seen by the Discovery Service. -/
structure Store where
  creators : List Creator
  templates : List TripTemplate
deriving Repr, DecidableEq

/-- The owning creator of a template, looked up by `creator_id`. -/
def creatorOf (st : Store) (t : TripTemplate) : Option Creator :=
  st.creators.find? (fun c => c.id == t.creator_id)

/-- Lower-case a string character by character. -/
def lowerStr (s : String) : String :=
  s.map Char.toLower

/-- Case-insensitive substring test: some tail of the haystack starts
with the needle, both compared lower-cased. -/
def containsCI (hay needle : String) : Bool :=
  ((lowerStr hay).toList.tails).any (fun t => (lowerStr needle).toList.isPrefixOf t)

/-- Whether a template matches an optional search term: with no term
everything matches; with a term, the title or the description must
contain it case-insensitively (spec section 4.3). -/
def matchesSearch (search : Option String) (t : TripTemplate) : Bool :=
  match search with
  | none => true
  | some s => containsCI t.title s || containsCI t.description s

/-- Whether a template is visible to discovery: published, owned by an
existing creator that is not suspended, and matching the search. -/
def discoverable (st : Store) (search : Option String) (t : TripTemplate) : Bool :=
  (t.status == TemplateStatus.published)
    && (match creatorOf st t with
        | some c => !(c.status == CreatorStatus.suspended)
        | none => false)
    && matchesSearch search t

/-- Ordering used by discovery: `created_at` descending, ties broken
by `id` (spec sections 4.2 and 4.3). -/
def tmplBefore (a b : TripTemplate) : Bool :=
  b.created_at < a.created_at || (a.created_at == b.created_at && a.id < b.id)

/-- Insert a template into a list sorted by `tmplBefore`. -/
def insertByCreated (t : TripTemplate) : List TripTemplate → List TripTemplate
  | [] => [t]
  | h :: rest => if tmplBefore t h then t :: h :: rest else h :: insertByCreated t rest

/-- Insertion sort by `tmplBefore`. -/
def sortByCreated : List TripTemplate → List TripTemplate
  | [] => []
  | h :: rest => insertByCreated h (sortByCreated rest)

/-- A paginated discovery result. -/
structure DiscoverResult where
  items : List TripTemplate
  total_count : Nat
deriving Repr, DecidableEq

/-- Modelled from the spec: the backend Discovery Service `discover`
operation (spec section 4.3) is not among the available sources (only
its frontend caller is), so it is modelled from the specification:
return only `status=published` templates whose owning creator exists
and is not suspended, filtered case-insensitively by the optional
search term over title and description, ordered by `created_at`
descending with ties broken by `id`, paginated by `skip`/`limit`, with
`total_count` the number of matching templates before pagination. -/
def discover (st : Store) (search : Option String) (skip limit : Nat) : DiscoverResult :=
  let visible := st.templates.filter (discoverable st search)
  let ordered := sortByCreated visible
  { items := (ordered.drop skip).take limit
    total_count := visible.length }

/-- The creator profile object returned by `getMyCreatorProfile`, with
the fields the dashboard reads. -/
structure CreatorProfile where
  username : String
  display_name : String
  bio : String
  status : String
deriving Repr, DecidableEq

/-- The observable state of the creator-profile query in
`CreatorDashboard`: loading flag, optional error (HTTP status) and
optional data. While the query is loading or failed, `data` is absent. -/
structure CreatorQueryState where
  isLoading : Bool
  error : Option Nat
  data : Option CreatorProfile
deriving Repr, DecidableEq

/-- The four top-level views `CreatorDashboard` can render. -/
inductive CreatorView where
  | loading
  | setup
  | templateForm
  | dashboard
deriving Repr, DecidableEq

/-- The top-level render branching of `CreatorDashboard` (`creator.tsx`
lines 96-120): loading text while the profile query loads; the
`CreatorSetup` flow when the query has an error or no data
(`creatorError || !creator`); the template creation form when
`showTemplateForm` is set; otherwise the dashboard. -/
def renderCreatorDashboard (q : CreatorQueryState) (showTemplateForm : Bool) : CreatorView :=
  if q.isLoading then .loading
  else if q.error.isSome || q.data.isNone then .setup
  else if showTemplateForm then .templateForm
  else .dashboard

/-- Whether the own-templates query of `CreatorDashboard` is enabled:
`enabled: !!creator` (`creator.tsx` line 55), the truthiness of the
profile query data. -/
def templatesQueryEnabled (q : CreatorQueryState) : Bool :=
  q.data.isSome

/-- The `getMyTemplates` request the dashboard issues, if any: when the
query is enabled it requests `skip = 0, limit = 10` (`creator.tsx`
lines 52-56), otherwise no request is issued. -/
def myTemplatesRequest (q : CreatorQueryState) : Option (Nat × Nat) :=
  if templatesQueryEnabled q then some (0, 10) else none

/-- The parameters of a `discoverTemplates` call. -/
structure DiscoverParams where
  skip : Nat
  limit : Nat
  search : Option String
deriving Repr, DecidableEq

/-- The `discoverTemplates` call built by `TemplateDiscovery`
(`templates.tsx` lines 33-38): `skip = 0`, `limit = 20`, and
`search || undefined`, so the empty search string (falsy) is sent as
no filter at all. -/
def discoverTemplatesCall (search : String) : DiscoverParams :=
  { skip := 0
    limit := 20
    search := if search = "" then none else some search }

/-- A discovered template as rendered by the templates page. -/
structure DiscoveredTemplate where
  id : Nat
  title : String
  description : String
  views_count : Nat
deriving Repr, DecidableEq

/-- The observable state of the discovery query in `TemplateDiscovery`:
loading flag, optional error (HTTP status) and optional response, the
response being the item list and the total count. -/
structure DiscoveryQueryState where
  isLoading : Bool
  error : Option Nat
  data : Option (List DiscoveredTemplate × Nat)
deriving Repr, DecidableEq

/-- The four bodies the templates page can render. -/
inductive DiscoveryView where
  | loading
  | failedToLoad
  | noTemplatesFound (hasSearchHint : Bool)
  | templateGrid (items : List DiscoveredTemplate)
deriving Repr, DecidableEq

/-- The render branching of `TemplateDiscovery` (`templates.tsx` lines
65-88): loading text while loading; the "Failed to load templates"
error box on a query error; the "No templates found" empty state when
the response holds zero items (with a hint that depends on whether a
search term is entered); otherwise the template grid. -/
def renderDiscovery (search : String) (q : DiscoveryQueryState) : DiscoveryView :=
  if q.isLoading then .loading
  else if q.error.isSome then .failedToLoad
  else
    match q.data with
    | some (items, _) =>
        if items.length = 0 then .noTemplatesFound (!(search == ""))
        else .templateGrid items
    | none => .templateGrid []

/-- A concrete template form in the only mapping state the form flow
can reach: title and description filled in, both mapping fields still
the (truthy) empty object they were initialised to. -/
def cexTemplateForm : TemplateForm :=
  { title := "Tokyo"
    description := "Great trip"
    creator_notes := ""
    core_experience := some []
    flexible_logistics := some [] }

/-- A concrete active creator for witnesses. -/
def sampleCreator : Creator :=
  { id := 1, user_id := 7, username := "alice", display_name := "Alice",
    status := CreatorStatus.active }

/-- A concrete published template for witnesses. -/
def sampleTemplate : TripTemplate :=
  { id := 1, creator_id := 1, title := "Tokyo Adventure",
    description := "seven days", status := TemplateStatus.published,
    created_at := 5 }

/-- A concrete store for witnesses. -/
def sampleStore : Store :=
  { creators := [sampleCreator], templates := [sampleTemplate] }

theorem mem_insertByCreated (t x : TripTemplate) (l : List TripTemplate) :
    x ∈ insertByCreated t l ↔ x = t ∨ x ∈ l := by
  induction l with
  | nil => simp [insertByCreated]
  | cons h rest ih =>
      simp only [insertByCreated]
      by_cases hb : tmplBefore t h = true
      · rw [if_pos hb]
        simp only [List.mem_cons]
      · rw [if_neg hb]
        simp only [List.mem_cons, ih]
        tauto

theorem mem_sortByCreated (x : TripTemplate) (l : List TripTemplate) :
    x ∈ sortByCreated l ↔ x ∈ l := by
  induction l with
  | nil => simp [sortByCreated]
  | cons h rest ih => simp [sortByCreated, mem_insertByCreated, ih]

/-- C1 counterexample: on a submission where the caller left both
mappings untouched (the initial empty objects, the only state the form
flow can produce), the submitted request carries the empty mappings,
not the fabricated destination-from-title and 7-days-duration
defaults: an empty JavaScript object is truthy, so the `||` defaulting
in `handleTemplateSubmit` never fires. -/
theorem creator_template_defaults_cex :
    requestOf cexTemplateForm =
      some { title := "Tokyo", description := "Great trip", creator_notes := "",
             core_experience := [], flexible_logistics := [] } ∧
    (requestOf cexTemplateForm).map (fun p => p.core_experience) ≠
      some [("destination", "Tokyo")] ∧
    (requestOf cexTemplateForm).map (fun p => p.flexible_logistics) ≠
      some [("duration", "7 days")] := by
  refine ⟨rfl, ?_, ?_⟩ <;> decide

/-- C1 (amended): on every template form submission with non-empty
title and description in which the mapping fields hold objects — as
they always do, the form initialising both to the empty object — the
submitted core_experience and flexible_logistics are exactly the form
state mappings, unchanged; the fabricated defaults would be sent only
if a field were null or undefined, which the form flow never
produces. -/
theorem creator_template_mappings_unchanged
    (form : TemplateForm) (m l : AttrMap)
    (ht : form.title ≠ "") (hd : form.description ≠ "")
    (hm : form.core_experience = some m) (hl : form.flexible_logistics = some l) :
    requestOf form =
      some { title := form.title, description := form.description,
             creator_notes := form.creator_notes,
             core_experience := m, flexible_logistics := l } := by
  simp [requestOf, handleTemplateSubmit, ht, hd, hm, hl, jsOrObj]

theorem creator_template_mappings_unchanged_witness :
    requestOf cexTemplateForm =
      some { title := "Tokyo", description := "Great trip", creator_notes := "",
             core_experience := [], flexible_logistics := [] } :=
  creator_template_mappings_unchanged cexTemplateForm [] []
    (by decide) (by decide) rfl rfl

/-- C2: the global error handler removes the stored access token and
redirects to the login page exactly on status 401; on status 403 it
shows an error toast without removing the token and without
redirecting; any other status, and any non-ApiError, triggers neither
action; and the handler is wired as the onError of both the query
cache and the mutation cache, so it applies globally to every query
and mutation. -/
theorem global_error_handler_distinction :
    (∀ d, handleApiError (.apiError 401 d) =
        { removeAccessToken := true, redirect := some "/login", toast := none }) ∧
    (∀ d, handleApiError (.apiError 403 d) =
        { removeAccessToken := false, redirect := none,
          toast := some ("Access Denied", jsOrString d "Access forbidden") }) ∧
    (∀ s d, s ≠ 401 → s ≠ 403 → handleApiError (.apiError s d) = noEffects) ∧
    handleApiError .jsError = noEffects ∧
    queryClient.queryCacheOnError = handleApiError ∧
    queryClient.mutationCacheOnError = handleApiError := by
  refine ⟨fun d => rfl, fun d => rfl, fun s d hs1 hs3 => ?_, rfl, rfl, rfl⟩
  simp [handleApiError, hs1, hs3]

theorem global_error_handler_distinction_witness :
    handleApiError (.apiError 401 none) =
      { removeAccessToken := true, redirect := some "/login", toast := none } ∧
    handleApiError (.apiError 500 none) = noEffects :=
  ⟨global_error_handler_distinction.1 none,
   global_error_handler_distinction.2.2.1 500 none (by decide) (by decide)⟩

/-- C3: a template submission with empty title or empty description is
rejected with the validation toast, and the handler issues no create
request (so nothing can be persisted) and leaves the component state —
in particular the form data — unchanged. -/
theorem template_submit_empty_fields_rejected
    (s : DashboardState)
    (h : s.templateFormData.title = "" ∨ s.templateFormData.description = "") :
    submitTemplateStep s =
      (s, [DashAction.errorToast "Please fill in all required fields"]) := by
  unfold submitTemplateStep handleTemplateSubmit
  rw [if_pos h]

theorem template_submit_empty_fields_rejected_witness :
    submitTemplateStep { showTemplateForm := true, templateFormData := initialTemplateForm } =
      ({ showTemplateForm := true, templateFormData := initialTemplateForm },
       [DashAction.errorToast "Please fill in all required fields"]) :=
  template_submit_empty_fields_rejected _ (Or.inl rfl)

/-- C4: every template in the items of any discover invocation has
status published and an owning creator that exists and is not
suspended; since draft differs from published, a draft template never
appears in discovery results, whatever the search term. -/
theorem discover_only_published_nonsuspended
    (st : Store) (search : Option String) (skip limit : Nat) (t : TripTemplate)
    (h : t ∈ (discover st search skip limit).items) :
    t.status = TemplateStatus.published ∧
      ∃ c, creatorOf st t = some c ∧ c.status ≠ CreatorStatus.suspended := by
  simp only [discover] at h
  have h1 : t ∈ sortByCreated (st.templates.filter (discoverable st search)) :=
    List.mem_of_mem_drop (List.mem_of_mem_take h)
  rw [mem_sortByCreated] at h1
  have h2 : discoverable st search t = true := (List.mem_filter.mp h1).2
  unfold discoverable at h2
  simp only [Bool.and_eq_true, beq_iff_eq] at h2
  obtain ⟨⟨hstat, hc⟩, -⟩ := h2
  refine ⟨hstat, ?_⟩
  cases hco : creatorOf st t with
  | none => rw [hco] at hc; simp at hc
  | some c =>
      rw [hco] at hc
      simp only [Bool.not_eq_eq_eq_not, Bool.not_true, beq_eq_false_iff_ne] at hc
      exact ⟨c, rfl, hc⟩

theorem discover_only_published_nonsuspended_witness :
    sampleTemplate.status = TemplateStatus.published ∧
      ∃ c, creatorOf sampleStore sampleTemplate = some c ∧
        c.status ≠ CreatorStatus.suspended :=
  discover_only_published_nonsuspended sampleStore none 0 20 sampleTemplate
    (by decide)

/-- C5 counterexample: a generic server error (HTTP 500) on the
profile query — which is not a profile-absence signal — also makes the
dashboard render the creator setup flow, because the source branches
on `creatorError || !creator`; so it is false that only profile
absence drives the setup flow. -/
theorem creator_setup_on_generic_error_cex :
    renderCreatorDashboard { isLoading := false, error := some 500, data := none } false =
      CreatorView.setup := by
  decide

/-- C5 (amended): when the profile query is settled (not loading) and
yields an error or no data — NotFound and genuine errors alike — the
dashboard routes to the creator setup flow rather than rendering an
error view; absence is not distinguished from other errors. -/
theorem creator_setup_on_absence_or_error
    (q : CreatorQueryState) (showTemplateForm : Bool)
    (hl : q.isLoading = false)
    (h : q.error.isSome = true ∨ q.data = none) :
    renderCreatorDashboard q showTemplateForm = CreatorView.setup := by
  unfold renderCreatorDashboard
  rw [hl]
  have hb : (q.error.isSome || q.data.isNone) = true := by
    rcases h with h | h
    · simp [h]
    · simp [h]
  rw [hb]
  simp

theorem creator_setup_on_absence_or_error_witness :
    renderCreatorDashboard { isLoading := false, error := some 404, data := none } false =
      CreatorView.setup :=
  creator_setup_on_absence_or_error _ false rfl (Or.inl rfl)

/-- C6: the discover call always uses skip 0 and limit 20, and the
search parameter is present exactly when the entered search string is
non-empty; an empty search string sends no search filter at all, so
the unfiltered published listing is requested. -/
theorem discover_search_param_omitted_when_empty (search : String) :
    (search = "" →
        discoverTemplatesCall search = { skip := 0, limit := 20, search := none }) ∧
    (search ≠ "" →
        discoverTemplatesCall search = { skip := 0, limit := 20, search := some search }) := by
  constructor
  · intro h
    simp [discoverTemplatesCall, h]
  · intro h
    simp [discoverTemplatesCall, h]

theorem discover_search_param_omitted_when_empty_witness :
    discoverTemplatesCall "" = { skip := 0, limit := 20, search := none } ∧
    discoverTemplatesCall "Tokyo" = { skip := 0, limit := 20, search := some "Tokyo" } :=
  ⟨(discover_search_param_omitted_when_empty "").1 rfl,
   (discover_search_param_omitted_when_empty "Tokyo").2 (by decide)⟩

/-- C7: a profile submission with empty username or empty display name
is rejected with the validation toast and no create request is issued;
with both non-empty, the create request is issued with exactly the
entered username, display name and bio. -/
theorem profile_submit_validation (form : ProfileForm) :
    ((form.username = "" ∨ form.display_name = "") →
        handleSubmit form = .rejected "Please fill in all required fields") ∧
    (form.username ≠ "" → form.display_name ≠ "" →
        handleSubmit form = .submitted form) := by
  constructor
  · intro h
    unfold handleSubmit
    rw [if_pos h]
  · intro h1 h2
    unfold handleSubmit
    rw [if_neg (not_or.mpr ⟨h1, h2⟩)]

theorem profile_submit_validation_witness :
    handleSubmit { username := "", display_name := "Alice", bio := "" } =
      .rejected "Please fill in all required fields" ∧
    handleSubmit { username := "alice", display_name := "Alice", bio := "hi" } =
      .submitted { username := "alice", display_name := "Alice", bio := "hi" } :=
  ⟨(profile_submit_validation _).1 (Or.inl rfl),
   (profile_submit_validation _).2 (by decide) (by decide)⟩

/-- C8: when the discovery query settles without error and its
response holds zero items, the page renders the "No templates found"
empty state (with a hint depending on whether a search term is
entered), which is a different view from the "Failed to load
templates" error state; so an empty result is never rendered as an
error. -/
theorem discovery_empty_state_not_error
    (search : String) (q : DiscoveryQueryState) (n : Nat)
    (hl : q.isLoading = false) (he : q.error = none) (hd : q.data = some ([], n)) :
    renderDiscovery search q = DiscoveryView.noTemplatesFound (!(search == "")) ∧
      DiscoveryView.noTemplatesFound (!(search == "")) ≠ DiscoveryView.failedToLoad := by
  constructor
  · simp [renderDiscovery, hl, he, hd]
  · simp

theorem discovery_empty_state_not_error_witness :
    renderDiscovery "" { isLoading := false, error := none, data := some ([], 0) } =
      DiscoveryView.noTemplatesFound (!("" == "")) ∧
    DiscoveryView.noTemplatesFound (!("" == "")) ≠ DiscoveryView.failedToLoad :=
  discovery_empty_state_not_error "" _ 0 rfl rfl rfl

/-- C9: after a successful template creation the success handler
closes the creation form, resets the form data to the initial empty
values (empty title, description and creator notes, empty mapping
objects), and invalidates the cached (creator, templates) query so the
dashboard refetches the list. -/
theorem create_template_success_resets_form (s : DashboardState) :
    (onCreateTemplateSuccess s).1.showTemplateForm = false ∧
    (onCreateTemplateSuccess s).1.templateFormData =
      { title := "", description := "", creator_notes := "",
        core_experience := some [], flexible_logistics := some [] } ∧
    DashAction.invalidateQueries ["creator", "templates"] ∈ (onCreateTemplateSuccess s).2 := by
  refine ⟨rfl, rfl, ?_⟩
  simp [onCreateTemplateSuccess]

/-- C10: the own-templates query is enabled exactly when the profile
query has data; whenever no profile is loaded — the loading, error and
absent states all have no data — no getMyTemplates request is issued,
and when a profile is loaded the request uses skip 0 and limit 10. -/
theorem templates_query_gated_on_profile (q : CreatorQueryState) :
    (q.data = none → myTemplatesRequest q = none) ∧
    (∀ p, q.data = some p → myTemplatesRequest q = some (0, 10)) := by
  constructor
  · intro h
    simp [myTemplatesRequest, templatesQueryEnabled, h]
  · intro p h
    simp [myTemplatesRequest, templatesQueryEnabled, h]

theorem templates_query_gated_on_profile_witness :
    myTemplatesRequest { isLoading := true, error := none, data := none } = none ∧
    myTemplatesRequest
      { isLoading := false, error := none,
        data := some { username := "alice", display_name := "Alice", bio := "", status := "active" } } =
      some (0, 10) :=
  ⟨(templates_query_gated_on_profile _).1 rfl,
   (templates_query_gated_on_profile _).2 _ rfl⟩
